import Mathlib

/-!
Verification of the BIO face-recognition repository.

Shallow embedding of:
- src/core/alignment.py   (StandardFaceAligner.align)
- src/core/recognizer.py  (FaceRecognizer.reload, FaceRecognizer.recognize_faces
                           and the matcher at lines 172-179)
- src/device/database.py  (LocalDatabase.log_attendance, LocalDatabase.sync_to_mysql)

External capabilities (OpenCV estimateAffinePartial2D / warpAffine / blobFromImage,
the ONNX embedder, the network stack) are modelled as oracle parameters: the code
under verification only branches on their results, never on their internals.
Python float values that may be NaN/Inf are modelled by the type FloatVal below;
finite numeric values are modelled as rationals.
-/

namespace BIO

/-- A Python float: either a finite value or one of the non-finite IEEE values.
`np.isfinite` is true exactly on the `finite` constructor. -/
inductive FloatVal where
  | finite (q : ℚ)
  | nan
  | inf
  | neginf
deriving DecidableEq

/-- Truth value of `np.isfinite` on a single value. -/
def FloatVal.isFinite : FloatVal → Bool
  | .finite _ => true
  | _ => false

/-- A planar landmark point (x, y), coordinates possibly non-finite. -/
abbrev LPoint := FloatVal × FloatVal

/-- An image: only the spatial dimensions matter to the control flow of the
code under verification (`shape[0]`, `shape[1]`, `size == 0`, the 112x112
check); pixel contents are handled solely by the external oracles. -/
structure Image where
  height : Nat
  width : Nat
deriving DecidableEq

/-- A 2x3 affine transformation matrix as returned by
`cv2.estimateAffinePartial2D`; entries may be non-finite. -/
structure AffineT where
  a11 : FloatVal
  a12 : FloatVal
  a13 : FloatVal
  a21 : FloatVal
  a22 : FloatVal
  a23 : FloatVal
deriving DecidableEq

/-- Finiteness check `np.all(np.isfinite(tform))` on the 2x3 matrix. -/
def AffineT.allFinite (t : AffineT) : Bool :=
  t.a11.isFinite && t.a12.isFinite && t.a13.isFinite &&
  t.a21.isFinite && t.a22.isFinite && t.a23.isFinite

/-- Oracles for the external OpenCV calls made by `StandardFaceAligner.align`.
`estimate` models `cv2.estimateAffinePartial2D` (returning `none` both for a
`None` result and for a raised `cv2.error`, which the source catches and turns
into `None`); `warp` models `cv2.warpAffine` the same way. -/
structure AlignEnv where
  estimate : List LPoint → Option AffineT
  warp : Image → AffineT → Option Image

/-- Finiteness check `np.all(np.isfinite(landmarks))` over the landmark list. -/
def landmarksFinite (lms : List LPoint) : Bool :=
  lms.all fun p => p.1.isFinite && p.2.isFinite

/-- src/core/alignment.py, `StandardFaceAligner.align` (lines 23-84).
Branch-for-branch translation: `None` inputs, a landmark count other than 5,
an image with a spatial dimension below 10, non-finite landmarks, a failed or
non-finite transform estimate and a failed or empty warp all yield `none`;
otherwise the warped image is returned. -/
def StandardFaceAligner.align (env : AlignEnv) (image : Option Image)
    (landmarks : Option (List LPoint)) : Option Image :=
  match image, landmarks with
  | none, _ => none
  | some _, none => none
  | some img, some lms =>
    if lms.length ≠ 5 then none
    else if img.height < 10 ∨ img.width < 10 then none
    else if !landmarksFinite lms then none
    else
      match env.estimate lms with
      | none => none
      | some t =>
        if !t.allFinite then none
        else
          match env.warp img t with
          | none => none
          | some out =>
            if out.height * out.width = 0 then none else some out

/-! ## The identity matcher (src/core/recognizer.py lines 172-179) -/

/-- Dot product `np.dot` of two equal-length vectors (the gallery rows and the normalized
query embedding are both D-dimensional). -/
def dotp (v w : List ℚ) : ℚ :=
  (List.zipWith (· * ·) v w).sum

/-- Index function `np.argmax`: the first index of the maximum element (0 on `[]`, matching
no use on the empty list in the source, which guards `len > 0`). -/
def argmaxIdx : List ℚ → Nat
  | [] => 0
  | [_] => 0
  | x :: y :: tl =>
    let j := argmaxIdx (y :: tl)
    if x < (y :: tl).getD j 0 then j + 1 else 0

/-- Line 174: `scores = np.dot(self.known_embeddings, embedding_norm.T).flatten()`. -/
def scoresOf (gallery : List (List ℚ)) (query : List ℚ) : List ℚ :=
  gallery.map fun e => dotp e query

/-- Line 175: `best_match_idx = np.argmax(scores)`. -/
def bestIdx (gallery : List (List ℚ)) (query : List ℚ) : Nat :=
  argmaxIdx (scoresOf gallery query)

/-- src/core/recognizer.py lines 131 and 172-179: `name = "Unknown"`; if the
gallery is non-empty, compute the dot-product scores, take the argmax, and
replace the name only when the maximum score is strictly above the threshold.
A `names` lookup out of range raises `IndexError` in Python, which the
enclosing handler converts to "Unknown"; `getD _ "Unknown"` models that. -/
def matchFace (gallery : List (List ℚ)) (names : List String) (thresh : ℚ)
    (query : List ℚ) : String :=
  if gallery.length > 0 then
    let scores := scoresOf gallery query
    let best := argmaxIdx scores
    let maxScore := scores.getD best 0
    if maxScore > thresh then names.getD best "Unknown" else "Unknown"
  else "Unknown"

/-- Default `RECOGNITION_THRESHOLD` from src/shared/config.py line 45. -/
def RECOGNITION_THRESHOLD : ℚ := 70 / 100

/-! ## The gallery store (src/core/recognizer.py, `FaceRecognizer.reload`) -/

/-- The live gallery held by `FaceRecognizer`: the parallel
`known_embeddings` / `known_names` arrays. -/
structure Gallery where
  known_embeddings : List (List ℚ)
  known_names : List String
deriving DecidableEq

/-- src/core/recognizer.py, `FaceRecognizer.reload` (lines 73-89).
`filesExist` models the `os.path.exists` conjunction; `load` models the
combined outcome of `np.load` + `json.load` into the temporaries
(`none` when either raises — the source assigns `self` only after both
succeed, so a half-read never reaches the live gallery). Returns the
boolean result together with the gallery after the call. -/
def FaceRecognizer.reload (g : Gallery) (filesExist : Bool)
    (load : Option (List (List ℚ) × List String)) : Bool × Gallery :=
  if filesExist then
    match load with
    | some (e, n) => (true, ⟨e, n⟩)
    | none => (false, g)
  else
    (false, g)

/-! ## The recognition orchestrator (src/core/recognizer.py, `recognize_faces`) -/

/-- Outcome of one external call inside the per-face `try`: it either
returns a value or raises (caught by the handlers at lines 181-184). -/
inductive StepResult (α : Type) where
  | ok (a : α)
  | exn
deriving DecidableEq

/-- One detected face as consumed by the loop body: the integer bounding
box from `face[:4].astype(int)` and the 5x2 landmark block from
`face[4:14].reshape((5, 2))`. -/
structure DetFace where
  x : Int
  y : Int
  w : Int
  h : Int
  landmarks : List LPoint
deriving DecidableEq

/-- Per-face outcomes of the external steps (alignment, blob construction,
embedding, normalization). `ok none` models a `None`/empty result, `exn`
a raised exception; both are handled by the source's per-face branches. -/
structure FaceEnv where
  alignResult : StepResult (Option Image)
  blobResult : StepResult (Option Unit)
  forwardResult : StepResult (Option Unit)
  normalizeResult : StepResult (List ℚ)

/-- Environment of one `recognize_faces` call: presence of the models and
the aligner, the detector output, and the per-detection-index external
outcomes. -/
structure RecEnv where
  hasDetector : Bool
  hasRecognizer : Bool
  hasAligner : Bool
  detectResult : StepResult (Option (List DetFace))
  faceEnvs : Nat → FaceEnv
  gallery : List (List ℚ)
  names : List String
  thresh : ℚ

/-- Lines 131-184: the name computed for one face. Starts as "Unknown";
only a fully successful align → shape check → blob → forward → normalize →
match chain can replace it. Each `exn` is caught by the handlers at lines
181-184, each `None`/empty or wrong-shape result takes an early
`continue`/skip with the name still "Unknown". -/
def innerName (gallery : List (List ℚ)) (names : List String) (thresh : ℚ)
    (hasAligner : Bool) (fe : FaceEnv) : String :=
  if hasAligner then
    match fe.alignResult with
    | .exn => "Unknown"
    | .ok none => "Unknown"
    | .ok (some img) =>
      if img.height ≠ 112 ∨ img.width ≠ 112 then "Unknown"
      else
        match fe.blobResult with
        | .exn => "Unknown"
        | .ok none => "Unknown"
        | .ok (some _) =>
          match fe.forwardResult with
          | .exn => "Unknown"
          | .ok none => "Unknown"
          | .ok (some _) =>
            match fe.normalizeResult with
            | .exn => "Unknown"
            | .ok q => matchFace gallery names thresh q
  else "Unknown"

/-- Lines 117-190, one iteration of the face loop: faces with a
non-positive box width or height are discarded (`continue` before any
append); every other face contributes its box and a name. -/
def processFace (gallery : List (List ℚ)) (names : List String) (thresh : ℚ)
    (hasAligner : Bool) (f : DetFace) (fe : FaceEnv) :
    Option ((Int × Int × Int × Int) × String) :=
  if f.w ≤ 0 ∨ f.h ≤ 0 then none
  else some ((f.x, f.y, f.w, f.h), innerName gallery names thresh hasAligner fe)

/-- The face loop (lines 115-190): iterate over detections in order,
index `i` tracking the detection position for the per-face environment. -/
def processFaces (gallery : List (List ℚ)) (names : List String) (thresh : ℚ)
    (hasAligner : Bool) (fes : Nat → FaceEnv) :
    Nat → List DetFace → List ((Int × Int × Int × Int) × String)
  | _, [] => []
  | i, f :: fs =>
    match processFace gallery names thresh hasAligner f (fes i) with
    | none => processFaces gallery names thresh hasAligner fes (i + 1) fs
    | some r => r :: processFaces gallery names thresh hasAligner fes (i + 1) fs

/-- src/core/recognizer.py, `FaceRecognizer.recognize_faces` (lines 91-196).
Top-level guards: `None`/empty frame, missing detector or recognizer, frame
under 10x10, and a detector failure or `None` detection array each return
`([], [])`; otherwise the face loop produces the parallel location/name
lists. -/
def recognize_faces (env : RecEnv) (frame : Option Image) :
    List (Int × Int × Int × Int) × List String :=
  match frame with
  | none => ([], [])
  | some fr =>
    if fr.height * fr.width = 0 then ([], [])
    else if !env.hasDetector || !env.hasRecognizer then ([], [])
    else if fr.height < 10 ∨ fr.width < 10 then ([], [])
    else
      match env.detectResult with
      | .exn => ([], [])
      | .ok none => ([], [])
      | .ok (some faces) =>
        let rs := processFaces env.gallery env.names env.thresh env.hasAligner
          env.faceEnvs 0 faces
        (rs.map Prod.fst, rs.map Prod.snd)

/-! ## The offline event ledger (src/device/database.py) -/

/-- One row of the local `local_attendance` table. -/
structure AttRecord where
  id : Nat
  timestamp : ℚ
  device_id : String
  name : String
  synced : Bool
deriving DecidableEq

/-- One row of the central `attendance_log` table (inserted with
`synced = 1`; the timestamp is the formatted local epoch timestamp). -/
structure CentralRow where
  timestamp : ℚ
  device_id : String
  name : String
  synced : Bool
deriving DecidableEq

/-- The two stores: the local SQLite table in insertion (rowid) order with
the next AUTOINCREMENT id, and the central MySQL table. -/
structure DbState where
  localTable : List AttRecord
  nextId : Nat
  centralTable : List CentralRow
deriving DecidableEq

/-- src/device/database.py, `LocalDatabase.log_attendance` (lines 41-59).
`localOk` models whether the local SQLite insert+commit succeeds (the only
fallible step: the function touches nothing but the local store).
`netOnline` models the state of the network / central store; the source
never consults it. Returns the boolean result and the new state. -/
def log_attendance (st : DbState) (localOk : Bool) (_netOnline : Bool)
    (now : ℚ) (device_id name : String) : Bool × DbState :=
  if localOk then
    (true, { st with
      localTable := st.localTable ++ [⟨st.nextId, now, device_id, name, false⟩],
      nextId := st.nextId + 1 })
  else
    (false, st)

/-- The batch read at line 68:
`SELECT id, timestamp, device_id, name FROM local_attendance WHERE synced = 0 LIMIT 50`.
SQLite serves this single-table query by a table scan in rowid order, so the
batch is the first (up to) 50 unsynced rows in insertion order. -/
def unsyncedBatch (st : DbState) : List AttRecord :=
  (st.localTable.filter fun r => r.synced = false).take 50

/-- The bulk update at line 117:
`UPDATE local_attendance SET synced = 1 WHERE id = ?` over the batch ids. -/
def markSynced (tbl : List AttRecord) (ids : List Nat) : List AttRecord :=
  tbl.map fun r => if r.id ∈ ids then { r with synced := true } else r

/-- The central row built by the insert at lines 100-105 (timestamp
reformatted, `synced = 1`). -/
def toCentralRow (r : AttRecord) : CentralRow :=
  ⟨r.timestamp, r.device_id, r.name, true⟩

/-- Failure modes of one `sync_to_mysql` call. `insertFailAt = some k`
models the k-th `m_cursor.execute` (or its timestamp formatting) raising;
`commitOk` the `m_conn.commit()`; `markOk` the SQLite mark-as-synced
transaction. -/
structure SyncEnv where
  readOk : Bool
  reachable : Bool
  insertFailAt : Option Nat
  commitOk : Bool
  markOk : Bool

/-- src/device/database.py, `LocalDatabase.sync_to_mysql` (lines 61-126).
Read failure, an empty batch, and an unreachable central store each return
with no state change. MySQL runs without autocommit, so inserts become
visible centrally only when `m_conn.commit()` succeeds: an exception during
the insert loop or the commit is caught at line 123 after the connection is
closed, rolling the uncommitted inserts back and skipping the local mark.
After a successful commit the batch ids are marked synced locally (a
failure there leaves the central rows in place — the at-least-once window). -/
def sync_to_mysql (st : DbState) (env : SyncEnv) : DbState :=
  if !env.readOk then st
  else
    let records := unsyncedBatch st
    if records.isEmpty then st
    else if !env.reachable then st
    else
      let failed := match env.insertFailAt with
        | some k => decide (k < records.length)
        | none => false
      if failed then st
      else if !env.commitOk then st
      else
        let st1 := { st with
          centralTable := st.centralTable ++ records.map toCentralRow }
        if env.markOk then
          { st1 with localTable := markSynced st1.localTable (records.map (·.id)) }
        else st1

/-! ## Theorems -/

/-- C2: any input violating a stated precondition of `align` — a non-finite
landmark coordinate, an image empty or smaller than 10x10 in a spatial
dimension, or a landmark count other than 5 — yields `none` (Python `None`),
for every behaviour of the external estimation/warp oracles. -/
theorem align_rejects_invalid (env : AlignEnv) (img : Image) (lms : List LPoint)
    (h : (∃ p ∈ lms, p.1.isFinite = false ∨ p.2.isFinite = false) ∨
         img.height < 10 ∨ img.width < 10 ∨ lms.length ≠ 5) :
    StandardFaceAligner.align env (some img) (some lms) = none := by
  unfold StandardFaceAligner.align
  by_cases h5 : lms.length = 5
  · by_cases hdim : img.height < 10 ∨ img.width < 10
    · simp [h5, hdim]
    · have hnf : ∃ p ∈ lms, p.1.isFinite = false ∨ p.2.isFinite = false := by
        rcases h with h | h | h | h
        · exact h
        · exact absurd (Or.inl h) hdim
        · exact absurd (Or.inr h) hdim
        · exact absurd h5 h
      have hlf : landmarksFinite lms = false := by
        apply Bool.eq_false_iff.mpr
        intro hall
        rw [landmarksFinite, List.all_eq_true] at hall
        rcases hnf with ⟨p, hp, hc⟩
        have hand := hall p hp
        rw [Bool.and_eq_true] at hand
        rcases hc with hc | hc
        · rw [hand.1] at hc; exact Bool.noConfusion hc
        · rw [hand.2] at hc; exact Bool.noConfusion hc
      simp [h5, hdim, hlf]
  · simp [h5]

/-- A concrete oracle environment for the alignment witness. -/
def wAlignEnv : AlignEnv :=
  ⟨fun _ => some ⟨.finite 1, .finite 0, .finite 0, .finite 0, .finite 1, .finite 0⟩,
   fun _ _ => some ⟨112, 112⟩⟩

/-- Concrete landmark list with a NaN coordinate. -/
def wBadLms : List LPoint :=
  [(.nan, .finite 52), (.finite 74, .finite 51), (.finite 56, .finite 72),
   (.finite 42, .finite 92), (.finite 71, .finite 92)]

theorem align_rejects_invalid_witness :
    ((∃ p ∈ wBadLms, p.1.isFinite = false ∨ p.2.isFinite = false) ∨
      (⟨200, 200⟩ : Image).height < 10 ∨ (⟨200, 200⟩ : Image).width < 10 ∨
      wBadLms.length ≠ 5) ∧
    StandardFaceAligner.align wAlignEnv (some ⟨200, 200⟩) (some wBadLms) = none :=
  ⟨by decide, align_rejects_invalid wAlignEnv ⟨200, 200⟩ wBadLms (by decide)⟩

/-- C3: `log_attendance` depends only on the local store: its result is the
same whatever the network state, and on local-insert success it returns
`true`, leaves the central table untouched, and appends exactly one record
carrying the current timestamp and `synced = false`. -/
theorem log_attendance_local_only (st : DbState) (ok net net' : Bool)
    (now : ℚ) (dev nm : String) :
    log_attendance st ok net now dev nm = log_attendance st ok net' now dev nm ∧
    (log_attendance st true net now dev nm).1 = true ∧
    (log_attendance st true net now dev nm).2.centralTable = st.centralTable ∧
    (log_attendance st true net now dev nm).2.localTable =
      st.localTable ++ [⟨st.nextId, now, dev, nm, false⟩] :=
  ⟨rfl, rfl, rfl, rfl⟩

/-- C4: with the central store unreachable (the connection attempt fails),
one `sync_to_mysql` call changes nothing: no local flag moves and no
central row appears. -/
theorem sync_unreachable_noop (st : DbState) (env : SyncEnv)
    (h : env.reachable = false) :
    sync_to_mysql st env = st := by
  unfold sync_to_mysql
  split
  · rfl
  · simp only [h]
    split
    · rfl
    · rfl

/-- Concrete ledger state for the sync witnesses: one unsynced record. -/
def wDbState : DbState :=
  ⟨[⟨1, 5, "device-A", "Alice", false⟩], 2, []⟩

/-- Concrete environment with the central store unreachable. -/
def wOfflineEnv : SyncEnv :=
  ⟨true, false, none, true, true⟩

theorem sync_unreachable_noop_witness :
    wOfflineEnv.reachable = false ∧ sync_to_mysql wDbState wOfflineEnv = wDbState :=
  ⟨rfl, sync_unreachable_noop wDbState wOfflineEnv rfl⟩

/-- C8: on any read/parse failure — files missing or either artifact
failing to load — `reload` returns `false` and the live gallery is exactly
what it was before the call. -/
theorem reload_failure_keeps_gallery (g : Gallery) (filesExist : Bool)
    (load : Option (List (List ℚ) × List String))
    (h : filesExist = false ∨ load = none) :
    FaceRecognizer.reload g filesExist load = (false, g) := by
  rcases h with h | h
  · simp [FaceRecognizer.reload, h]
  · cases filesExist <;> simp [FaceRecognizer.reload, h]

theorem reload_failure_keeps_gallery_witness :
    ((true : Bool) = false ∨ (none : Option (List (List ℚ) × List String)) = none) ∧
    FaceRecognizer.reload ⟨[[1]], ["alice"]⟩ true none = (false, ⟨[[1]], ["alice"]⟩) :=
  ⟨Or.inr rfl, reload_failure_keeps_gallery ⟨[[1]], ["alice"]⟩ true none (Or.inr rfl)⟩

/-- C7: with the model assets missing at startup (`_load_models` returned
early, so detector and recognizer are both absent), every call of
`recognize_faces` completes with the empty result pair, and hence every
reported face name is "Unknown". -/
theorem models_missing_always_unknown (env : RecEnv) (frame : Option Image)
    (h : env.hasDetector = false ∧ env.hasRecognizer = false) :
    recognize_faces env frame = ([], []) ∧
    ∀ n ∈ (recognize_faces env frame).2, n = "Unknown" := by
  have hmain : recognize_faces env frame = ([], []) := by
    cases frame with
    | none => rfl
    | some fr => simp [recognize_faces, h.1]
  refine ⟨hmain, ?_⟩
  rw [hmain]
  intro n hn
  cases hn

/-- Concrete recognizer environment without loaded models. -/
def wNoModelEnv : RecEnv :=
  { hasDetector := false, hasRecognizer := false, hasAligner := true,
    detectResult := .ok (some []), faceEnvs := fun _ => ⟨.exn, .exn, .exn, .exn⟩,
    gallery := [], names := [], thresh := RECOGNITION_THRESHOLD }

theorem models_missing_always_unknown_witness :
    (wNoModelEnv.hasDetector = false ∧ wNoModelEnv.hasRecognizer = false) ∧
    (recognize_faces wNoModelEnv (some ⟨240, 320⟩) = ([], []) ∧
     ∀ n ∈ (recognize_faces wNoModelEnv (some ⟨240, 320⟩)).2, n = "Unknown") :=
  ⟨⟨rfl, rfl⟩, models_missing_always_unknown wNoModelEnv (some ⟨240, 320⟩) ⟨rfl, rfl⟩⟩

/-- C10: `recognize_faces` always returns a pair of parallel lists — the
locations and names are the two projections of one list of per-face
(box, name) results, so their lengths are equal on every path. -/
theorem recognize_faces_parallel (env : RecEnv) (frame : Option Image) :
    (∃ rs : List ((Int × Int × Int × Int) × String),
      recognize_faces env frame = (rs.map Prod.fst, rs.map Prod.snd)) ∧
    (recognize_faces env frame).1.length = (recognize_faces env frame).2.length := by
  have hex : ∃ rs : List ((Int × Int × Int × Int) × String),
      recognize_faces env frame = (rs.map Prod.fst, rs.map Prod.snd) := by
    cases frame with
    | none => exact ⟨[], rfl⟩
    | some fr =>
      unfold recognize_faces
      repeat' split
      all_goals first
        | exact ⟨[], rfl⟩
        | exact ⟨_, rfl⟩
  refine ⟨hex, ?_⟩
  obtain ⟨rs, hrs⟩ := hex
  rw [hrs]
  simp

/-- C5: the batch read by `sync_to_mysql` holds at most 50 records, is a
subsequence of the local table (insertion order, oldest first), consists of
unsynced records only, and on a fully successful sync the central table
grows by exactly that batch, in the same order. -/
theorem sync_batch_bounded_ordered (st : DbState) (env : SyncEnv)
    (h1 : env.readOk = true) (h2 : env.reachable = true)
    (h3 : env.insertFailAt = none) (h4 : env.commitOk = true) :
    (unsyncedBatch st).length ≤ 50 ∧
    (unsyncedBatch st).Sublist st.localTable ∧
    (∀ r ∈ unsyncedBatch st, r.synced = false) ∧
    (sync_to_mysql st env).centralTable =
      st.centralTable ++ (unsyncedBatch st).map toCentralRow := by
  refine ⟨?_, ?_, ?_, ?_⟩
  · exact List.length_take_le 50 _
  · exact (List.take_sublist _ _).trans (List.filter_sublist _)
  · intro r hr
    have hmem := List.mem_of_mem_take hr
    have hfil := List.mem_filter.mp hmem
    exact of_decide_eq_true hfil.2
  · by_cases hemp : (unsyncedBatch st).isEmpty
    · have hnil : unsyncedBatch st = [] := by
        simpa using hemp
      simp [sync_to_mysql, h1, h2, h3, h4, hemp, hnil]
    · cases hm : env.markOk <;>
        simp [sync_to_mysql, h1, h2, h3, h4, hemp, hm]

/-- A record already synced is unchanged by re-setting its flag. -/
theorem mark_true_self (r : AttRecord) (h : r.synced = true) :
    { r with synced := true } = r := by
  cases r
  simp_all

/-- When the id list covers every unsynced record of the table, the bulk
update marks exactly the unsynced records and leaves the rest untouched. -/
theorem markSynced_covers (tbl : List AttRecord) (ids : List Nat)
    (h : ∀ r ∈ tbl, r.synced = false → r.id ∈ ids) :
    markSynced tbl ids =
      tbl.map fun r => if r.synced then r else { r with synced := true } := by
  unfold markSynced
  apply List.map_congr_left
  intro r hr
  by_cases hs : r.synced = true
  · by_cases hid : r.id ∈ ids
    · rw [if_pos hid, if_pos hs, mark_true_self r hs]
    · rw [if_neg hid, if_pos hs]
  · have hs' : r.synced = false := Bool.eq_false_iff.mpr hs
    have hid := h r hr hs'
    rw [if_pos hid, if_neg hs]

/-- All code paths of `sync_to_mysql` reaching the commit gate return the
unchanged state when the commit fails; earlier paths never mutate at all. -/
theorem sync_commit_fail_noop (st : DbState) (env : SyncEnv)
    (h : env.commitOk = false) :
    sync_to_mysql st env = st := by
  simp [sync_to_mysql, h]

/-- C6: with N ≤ 50 unsynced records, a reachable central store and every
insert, commit and mark succeeding, one sync inserts exactly the N unsynced
records centrally and flips exactly those N local flags to `synced = true`;
and whenever the central commit does not succeed, the local table is left
fully unchanged (marking happens only after the commit). -/
theorem sync_success_exact (st : DbState) (env : SyncEnv)
    (hN : (st.localTable.filter fun r => r.synced = false).length ≤ 50)
    (h1 : env.readOk = true) (h2 : env.reachable = true)
    (h3 : env.insertFailAt = none) (h4 : env.commitOk = true)
    (h5 : env.markOk = true) :
    (sync_to_mysql st env).centralTable =
      st.centralTable ++
        (st.localTable.filter fun r => r.synced = false).map toCentralRow ∧
    (sync_to_mysql st env).localTable =
      st.localTable.map (fun r => if r.synced then r else { r with synced := true }) ∧
    (∀ env', env'.commitOk = false → sync_to_mysql st env' = st) := by
  have hbatch : unsyncedBatch st = st.localTable.filter fun r => r.synced = false := by
    unfold unsyncedBatch
    exact List.take_of_length_le hN
  refine ⟨?_, ?_, fun env' h' => sync_commit_fail_noop st env' h'⟩
  · have := (sync_batch_bounded_ordered st env h1 h2 h3 h4).2.2.2
    rwa [hbatch] at this
  · by_cases hemp : (unsyncedBatch st).isEmpty
    · have hnil : (st.localTable.filter fun r => r.synced = false) = [] := by
        rw [← hbatch]
        simpa using hemp
      have hall : ∀ r ∈ st.localTable, r.synced = true := by
        intro r hr
        by_contra hs
        have hs' : r.synced = false := Bool.eq_false_iff.mpr hs
        have hmem : r ∈ st.localTable.filter fun r => r.synced = false :=
          List.mem_filter.mpr ⟨hr, by simp [hs']⟩
        rw [hnil] at hmem
        cases hmem
      have hmap : (st.localTable.map fun r =>
          if r.synced then r else { r with synced := true }) = st.localTable := by
        conv_rhs => rw [show st.localTable = st.localTable.map id from
          (List.map_id _).symm]
        apply List.map_congr_left
        intro r hr
        rw [if_pos (hall r hr)]
        rfl
      rw [hmap]
      simp [sync_to_mysql, h1, hemp]
    · have hsync : (sync_to_mysql st env).localTable =
          markSynced st.localTable ((unsyncedBatch st).map (·.id)) := by
        simp [sync_to_mysql, h1, h2, h3, h4, h5, hemp]
      rw [hsync, hbatch]
      exact markSynced_covers st.localTable _ fun r hr hs =>
        List.mem_map.mpr ⟨r, List.mem_filter.mpr ⟨hr, by simp [hs]⟩, rfl⟩

/-- Concrete environment with the central store reachable and every step
succeeding. -/
def wOnlineEnv : SyncEnv :=
  ⟨true, true, none, true, true⟩

theorem sync_batch_bounded_ordered_witness :
    wOnlineEnv.readOk = true ∧ wOnlineEnv.reachable = true ∧
    wOnlineEnv.insertFailAt = none ∧ wOnlineEnv.commitOk = true ∧
    ((unsyncedBatch wDbState).length ≤ 50 ∧
     (unsyncedBatch wDbState).Sublist wDbState.localTable ∧
     (∀ r ∈ unsyncedBatch wDbState, r.synced = false) ∧
     (sync_to_mysql wDbState wOnlineEnv).centralTable =
       wDbState.centralTable ++ (unsyncedBatch wDbState).map toCentralRow) :=
  ⟨rfl, rfl, rfl, rfl,
   sync_batch_bounded_ordered wDbState wOnlineEnv rfl rfl rfl rfl⟩

theorem sync_success_exact_witness :
    ((wDbState.localTable.filter fun r => r.synced = false).length ≤ 50 ∧
     wOnlineEnv.readOk = true ∧ wOnlineEnv.reachable = true ∧
     wOnlineEnv.insertFailAt = none ∧ wOnlineEnv.commitOk = true ∧
     wOnlineEnv.markOk = true) ∧
    ((sync_to_mysql wDbState wOnlineEnv).centralTable =
       wDbState.centralTable ++
         (wDbState.localTable.filter fun r => r.synced = false).map toCentralRow ∧
     (sync_to_mysql wDbState wOnlineEnv).localTable =
       wDbState.localTable.map
         (fun r => if r.synced then r else { r with synced := true }) ∧
     (∀ env', env'.commitOk = false → sync_to_mysql wDbState env' = wDbState)) :=
  ⟨⟨by decide, rfl, rfl, rfl, rfl, rfl⟩,
   sync_success_exact wDbState wOnlineEnv (by decide) rfl rfl rfl rfl rfl⟩

/-- Characterization of `np.argmax` on a non-empty list: the returned index is in range, its
element is a maximum, and every earlier element is strictly below it (the
first index achieving the maximum). -/
theorem argmaxIdx_isFirstMax (l : List ℚ) (h : l ≠ []) :
    argmaxIdx l < l.length ∧
    (∀ j < l.length, l.getD j 0 ≤ l.getD (argmaxIdx l) 0) ∧
    (∀ j < argmaxIdx l, l.getD j 0 < l.getD (argmaxIdx l) 0) := by
  induction l with
  | nil => exact absurd rfl h
  | cons x rest ih =>
    cases rest with
    | nil =>
      refine ⟨by simp [argmaxIdx], ?_, ?_⟩
      · intro j hj
        have hj0 : j = 0 := Nat.lt_one_iff.mp (by simpa using hj)
        subst hj0
        simp [argmaxIdx]
      · intro j hj
        simp [argmaxIdx] at hj
    | cons y tl =>
      obtain ⟨ih1, ih2, ih3⟩ := ih (by simp)
      by_cases hx : x < (y :: tl).getD (argmaxIdx (y :: tl)) 0
      · have hidx : argmaxIdx (x :: y :: tl) = argmaxIdx (y :: tl) + 1 := by
          simp only [argmaxIdx]
          rw [if_pos hx]
        refine ⟨?_, ?_, ?_⟩
        · rw [hidx]
          simpa using ih1
        · intro k hk
          rw [hidx, List.getD_cons_succ]
          cases k with
          | zero =>
            rw [List.getD_cons_zero]
            exact le_of_lt hx
          | succ k' =>
            rw [List.getD_cons_succ]
            exact ih2 k' (by simpa using hk)
        · intro k hk
          rw [hidx] at hk
          rw [hidx, List.getD_cons_succ]
          cases k with
          | zero =>
            rw [List.getD_cons_zero]
            exact hx
          | succ k' =>
            rw [List.getD_cons_succ]
            exact ih3 k' (Nat.lt_of_succ_lt_succ hk)
      · have hidx : argmaxIdx (x :: y :: tl) = 0 := by
          simp only [argmaxIdx]
          rw [if_neg hx]
        have hmax : (y :: tl).getD (argmaxIdx (y :: tl)) 0 ≤ x := not_lt.mp hx
        refine ⟨?_, ?_, ?_⟩
        · rw [hidx]
          exact Nat.succ_pos _
        · intro k hk
          rw [hidx, List.getD_cons_zero]
          cases k with
          | zero => rw [List.getD_cons_zero]
          | succ k' =>
            rw [List.getD_cons_succ]
            exact le_trans (ih2 k' (by simpa using hk)) hmax
        · intro k hk
          rw [hidx] at hk
          exact absurd hk (Nat.not_lt_zero k)

/-- C1: for a non-empty gallery the matcher scores every gallery embedding
by dot product with the query, picks the first index achieving the maximum
score, and returns the name at that index exactly when the maximum is
strictly above the threshold, otherwise "Unknown"; the empty gallery always
yields "Unknown". -/
theorem matchFace_correct (gallery : List (List ℚ)) (names : List String)
    (t : ℚ) (q : List ℚ) (hn : names.length = gallery.length) :
    (gallery = [] → matchFace gallery names t q = "Unknown") ∧
    (gallery ≠ [] →
      bestIdx gallery q < gallery.length ∧
      bestIdx gallery q < names.length ∧
      (∀ j < gallery.length,
        (scoresOf gallery q).getD j 0 ≤
          (scoresOf gallery q).getD (bestIdx gallery q) 0) ∧
      (∀ j < bestIdx gallery q,
        (scoresOf gallery q).getD j 0 <
          (scoresOf gallery q).getD (bestIdx gallery q) 0) ∧
      matchFace gallery names t q =
        if t < (scoresOf gallery q).getD (bestIdx gallery q) 0
        then names.getD (bestIdx gallery q) "Unknown"
        else "Unknown") := by
  constructor
  · intro hg
    subst hg
    rfl
  · intro hg
    have hsne : scoresOf gallery q ≠ [] := by
      simp [scoresOf, hg]
    have hlen : (scoresOf gallery q).length = gallery.length := by
      simp [scoresOf]
    obtain ⟨m1, m2, m3⟩ := argmaxIdx_isFirstMax (scoresOf gallery q) hsne
    have hb1 : bestIdx gallery q < gallery.length := by
      rw [bestIdx, ← hlen]
      exact m1
    refine ⟨hb1, hn ▸ hb1, ?_, ?_, ?_⟩
    · intro j hj
      exact m2 j (by rw [hlen]; exact hj)
    · intro j hj
      exact m3 j hj
    · have hpos : gallery.length > 0 := List.length_pos.mpr hg
      simp only [matchFace, if_pos hpos]
      rfl

/-- Concrete gallery for the matcher witness: two unit-length 2-dim
embeddings, a query matching the second above the default threshold. -/
def wGallery : List (List ℚ) := [[1, 0], [0, 1]]

/-- Names parallel to `wGallery`. -/
def wNames : List String := ["alice", "bob"]

theorem matchFace_correct_witness :
    wNames.length = wGallery.length ∧
    ((wGallery = [] → matchFace wGallery wNames RECOGNITION_THRESHOLD [0, 1] = "Unknown") ∧
     (wGallery ≠ [] →
       bestIdx wGallery [0, 1] < wGallery.length ∧
       bestIdx wGallery [0, 1] < wNames.length ∧
       (∀ j < wGallery.length,
         (scoresOf wGallery [0, 1]).getD j 0 ≤
           (scoresOf wGallery [0, 1]).getD (bestIdx wGallery [0, 1]) 0) ∧
       (∀ j < bestIdx wGallery [0, 1],
         (scoresOf wGallery [0, 1]).getD j 0 <
           (scoresOf wGallery [0, 1]).getD (bestIdx wGallery [0, 1]) 0) ∧
       matchFace wGallery wNames RECOGNITION_THRESHOLD [0, 1] =
         if RECOGNITION_THRESHOLD <
             (scoresOf wGallery [0, 1]).getD (bestIdx wGallery [0, 1]) 0
         then wNames.getD (bestIdx wGallery [0, 1]) "Unknown"
         else "Unknown")) :=
  ⟨rfl, matchFace_correct wGallery wNames RECOGNITION_THRESHOLD [0, 1] rfl⟩

/-- A failure during one of the per-face steps of lines 134-179: the
alignment raising or returning `None`, a wrong-shape aligned face, the blob
construction raising or returning `None`/empty, the embedder raising or
returning `None`/empty, or the normalization raising. -/
def faceStepFails (fe : FaceEnv) : Prop :=
  fe.alignResult = .exn ∨ fe.alignResult = .ok none ∨
  (∃ img, fe.alignResult = .ok (some img) ∧
    (img.height ≠ 112 ∨ img.width ≠ 112)) ∨
  fe.blobResult = .exn ∨ fe.blobResult = .ok none ∨
  fe.forwardResult = .exn ∨ fe.forwardResult = .ok none ∨
  fe.normalizeResult = .exn

/-- Any per-face step failure leaves the face's name at "Unknown". -/
theorem faceStepFails_unknown (g : List (List ℚ)) (n : List String) (t : ℚ)
    (ha : Bool) (fe : FaceEnv) (h : faceStepFails fe) :
    innerName g n t ha fe = "Unknown" := by
  cases ha
  · rfl
  · obtain ⟨ar, br, fr2, nr⟩ := fe
    cases ar with
    | exn => rfl
    | ok o =>
      cases o with
      | none => rfl
      | some img =>
        by_cases hdim : img.height ≠ 112 ∨ img.width ≠ 112
        · simp [innerName, hdim]
        · cases br with
          | exn => simp [innerName, hdim]
          | ok ob =>
            cases ob with
            | none => simp [innerName, hdim]
            | some u =>
              cases fr2 with
              | exn => simp [innerName, hdim]
              | ok of =>
                cases of with
                | none => simp [innerName, hdim]
                | some u2 =>
                  cases nr with
                  | exn => simp [innerName, hdim]
                  | ok q =>
                    exfalso
                    rcases h with h | h | ⟨i2, hi2, hd2⟩ | h | h | h | h | h <;>
                      simp_all [faceStepFails]

/-- With every bounding box valid, the face loop reports exactly the
detected boxes, in detection order, independently of the per-face
outcomes. -/
theorem processFaces_locations (g : List (List ℚ)) (n : List String) (t : ℚ)
    (ha : Bool) (fes : Nat → FaceEnv) (k : Nat) (faces : List DetFace)
    (hb : ∀ f ∈ faces, 0 < f.w ∧ 0 < f.h) :
    (processFaces g n t ha fes k faces).map Prod.fst =
      faces.map fun f => (f.x, f.y, f.w, f.h) := by
  revert hb
  induction faces generalizing k with
  | nil =>
    intro hb
    rfl
  | cons f fs ih =>
    intro hb
    have hf := hb f (List.mem_cons_self f fs)
    have hrest : ∀ f ∈ fs, 0 < f.w ∧ 0 < f.h :=
      fun f hm => hb f (List.mem_cons_of_mem _ hm)
    have hpf : processFace g n t ha f (fes k) =
        some ((f.x, f.y, f.w, f.h), innerName g n t ha (fes k)) := by
      unfold processFace
      rw [if_neg (by push_neg; exact hf)]
    unfold processFaces
    rw [hpf]
    simp only [List.map_cons, List.map]
    rw [ih (k + 1) hrest]

/-- With every bounding box valid, the j-th reported name is the name
computed for the j-th detection from that detection's own per-face
outcomes alone. -/
theorem processFaces_names (g : List (List ℚ)) (n : List String) (t : ℚ)
    (ha : Bool) (fes : Nat → FaceEnv) (k j : Nat) (faces : List DetFace)
    (hb : ∀ f ∈ faces, 0 < f.w ∧ 0 < f.h) :
    ((processFaces g n t ha fes k faces).map Prod.snd).getD j "" =
      if j < faces.length then innerName g n t ha (fes (k + j)) else "" := by
  revert hb
  induction faces generalizing k j with
  | nil =>
    intro hb
    simp [processFaces]
  | cons f fs ih =>
    intro hb
    have hf := hb f (List.mem_cons_self f fs)
    have hrest : ∀ f ∈ fs, 0 < f.w ∧ 0 < f.h :=
      fun f hm => hb f (List.mem_cons_of_mem _ hm)
    have hpf : processFace g n t ha f (fes k) =
        some ((f.x, f.y, f.w, f.h), innerName g n t ha (fes k)) := by
      unfold processFace
      rw [if_neg (by push_neg; exact hf)]
    unfold processFaces
    rw [hpf]
    cases j with
    | zero =>
      simp
    | succ j' =>
      simp only [List.map_cons, List.getD_cons_succ, List.length_cons]
      rw [ih (k + 1) j' hrest]
      have harith : k + 1 + j' = k + (j' + 1) := by omega
      rw [harith]
      by_cases hj : j' < fs.length
      · rw [if_pos hj, if_pos (Nat.succ_lt_succ hj)]
      · rw [if_neg hj, if_neg (by omega)]

/-- When the guards pass and detection returns a face list,
`recognize_faces` is the face loop over that list. -/
theorem recognize_faces_run (env : RecEnv) (fr : Image)
    (hD : env.hasDetector = true) (hR : env.hasRecognizer = true)
    (hh : 10 ≤ fr.height) (hw : 10 ≤ fr.width) (faces : List DetFace)
    (hdet : env.detectResult = .ok (some faces)) :
    recognize_faces env (some fr) =
      ((processFaces env.gallery env.names env.thresh env.hasAligner
          env.faceEnvs 0 faces).map Prod.fst,
       (processFaces env.gallery env.names env.thresh env.hasAligner
          env.faceEnvs 0 faces).map Prod.snd) := by
  have h1 : ¬(fr.height * fr.width = 0) := by
    have : 0 < fr.height * fr.width := Nat.mul_pos (by omega) (by omega)
    omega
  have h3 : ¬(fr.height < 10 ∨ fr.width < 10) := by omega
  simp [recognize_faces, h1, h3, hD, hR, hdet]

/-- C9: per-face failure isolation. Changing the external outcomes of face
`i` alone (in particular to any failing outcome) leaves the reported
locations identical, the name list the same length, and every other face's
name unchanged, while a failing face `i` itself reports "Unknown"; the
frame is never aborted — every valid detection stays reported. -/
theorem face_failure_isolated (envA : RecEnv) (fe' : Nat → FaceEnv) (i : Nat)
    (fr : Image) (faces : List DetFace)
    (hD : envA.hasDetector = true) (hR : envA.hasRecognizer = true)
    (hh : 10 ≤ fr.height) (hw : 10 ≤ fr.width)
    (hdet : envA.detectResult = .ok (some faces))
    (hb : ∀ f ∈ faces, 0 < f.w ∧ 0 < f.h)
    (hagree : ∀ j, j ≠ i → fe' j = envA.faceEnvs j) :
    (recognize_faces { envA with faceEnvs := fe' } (some fr)).1 =
      (recognize_faces envA (some fr)).1 ∧
    (recognize_faces envA (some fr)).1 =
      faces.map (fun f => (f.x, f.y, f.w, f.h)) ∧
    (recognize_faces { envA with faceEnvs := fe' } (some fr)).2.length =
      (recognize_faces envA (some fr)).2.length ∧
    (∀ j, j ≠ i →
      (recognize_faces { envA with faceEnvs := fe' } (some fr)).2.getD j "" =
        (recognize_faces envA (some fr)).2.getD j "") ∧
    (faceStepFails (fe' i) → i < faces.length →
      (recognize_faces { envA with faceEnvs := fe' } (some fr)).2.getD i "" =
        "Unknown") := by
  have hrunA := recognize_faces_run envA fr hD hR hh hw faces hdet
  have hrunB := recognize_faces_run { envA with faceEnvs := fe' } fr hD hR hh hw
    faces hdet
  have hlocA : (recognize_faces envA (some fr)).1 =
      faces.map (fun f => (f.x, f.y, f.w, f.h)) := by
    rw [hrunA]
    exact processFaces_locations _ _ _ _ _ 0 faces hb
  have hlocB : (recognize_faces { envA with faceEnvs := fe' } (some fr)).1 =
      faces.map (fun f => (f.x, f.y, f.w, f.h)) := by
    rw [hrunB]
    exact processFaces_locations _ _ _ _ _ 0 faces hb
  have hlen : ∀ fes : Nat → FaceEnv,
      ((processFaces envA.gallery envA.names envA.thresh envA.hasAligner
        fes 0 faces).map Prod.snd).length = faces.length := by
    intro fes
    have hc := congrArg List.length
      (processFaces_locations envA.gallery envA.names envA.thresh
        envA.hasAligner fes 0 faces hb)
    simpa using hc
  have hnmA : ∀ j, (recognize_faces envA (some fr)).2.getD j "" =
      if j < faces.length
      then innerName envA.gallery envA.names envA.thresh envA.hasAligner
        (envA.faceEnvs j)
      else "" := by
    intro j
    rw [hrunA]
    have := processFaces_names envA.gallery envA.names envA.thresh
      envA.hasAligner envA.faceEnvs 0 j faces hb
    simpa using this
  have hnmB : ∀ j,
      (recognize_faces { envA with faceEnvs := fe' } (some fr)).2.getD j "" =
      if j < faces.length
      then innerName envA.gallery envA.names envA.thresh envA.hasAligner (fe' j)
      else "" := by
    intro j
    rw [hrunB]
    have := processFaces_names envA.gallery envA.names envA.thresh
      envA.hasAligner fe' 0 j faces hb
    simpa using this
  refine ⟨hlocB.trans hlocA.symm, hlocA, ?_, ?_, ?_⟩
  · rw [hrunA, hrunB]
    rw [hlen envA.faceEnvs, hlen fe']
  · intro j hj
    rw [hnmA j, hnmB j, hagree j hj]
  · intro hfail hi
    rw [hnmB i, if_pos hi]
    exact faceStepFails_unknown _ _ _ _ _ hfail

/-- Two concrete detections with valid boxes for the isolation witness. -/
def wFaces : List DetFace :=
  [⟨10, 10, 40, 40, [(.finite 20, .finite 20), (.finite 40, .finite 20),
     (.finite 30, .finite 30), (.finite 22, .finite 42), (.finite 38, .finite 42)]⟩,
   ⟨100, 10, 40, 40, [(.finite 110, .finite 20), (.finite 130, .finite 20),
     (.finite 120, .finite 30), (.finite 112, .finite 42), (.finite 128, .finite 42)]⟩]

/-- Per-face outcomes with every step succeeding. -/
def wGoodFaceEnv : FaceEnv :=
  ⟨.ok (some ⟨112, 112⟩), .ok (some ()), .ok (some ()), .ok [0, 1]⟩

/-- Per-face outcomes where the alignment raises. -/
def wBadFaceEnv : FaceEnv :=
  ⟨.exn, .ok (some ()), .ok (some ()), .ok [0, 1]⟩

/-- Recognizer environment for the isolation witness: all faces succeed. -/
def wIsoEnvA : RecEnv :=
  { hasDetector := true, hasRecognizer := true, hasAligner := true,
    detectResult := .ok (some wFaces), faceEnvs := fun _ => wGoodFaceEnv,
    gallery := wGallery, names := wNames, thresh := RECOGNITION_THRESHOLD }

/-- Alternative per-face outcomes: face 1 fails, all others unchanged. -/
def wIsoFe (j : Nat) : FaceEnv :=
  if j = 1 then wBadFaceEnv else wGoodFaceEnv

theorem face_failure_isolated_witness :
    (wIsoEnvA.hasDetector = true ∧ wIsoEnvA.hasRecognizer = true ∧
     10 ≤ (⟨240, 320⟩ : Image).height ∧ 10 ≤ (⟨240, 320⟩ : Image).width ∧
     wIsoEnvA.detectResult = .ok (some wFaces) ∧
     (∀ f ∈ wFaces, 0 < f.w ∧ 0 < f.h) ∧
     (∀ j, j ≠ 1 → wIsoFe j = wIsoEnvA.faceEnvs j)) ∧
    ((recognize_faces { wIsoEnvA with faceEnvs := wIsoFe } (some ⟨240, 320⟩)).1 =
       (recognize_faces wIsoEnvA (some ⟨240, 320⟩)).1 ∧
     (recognize_faces wIsoEnvA (some ⟨240, 320⟩)).1 =
       wFaces.map (fun f => (f.x, f.y, f.w, f.h)) ∧
     (recognize_faces { wIsoEnvA with faceEnvs := wIsoFe } (some ⟨240, 320⟩)).2.length =
       (recognize_faces wIsoEnvA (some ⟨240, 320⟩)).2.length ∧
     (∀ j, j ≠ 1 →
       (recognize_faces { wIsoEnvA with faceEnvs := wIsoFe } (some ⟨240, 320⟩)).2.getD j "" =
         (recognize_faces wIsoEnvA (some ⟨240, 320⟩)).2.getD j "") ∧
     (faceStepFails (wIsoFe 1) → 1 < wFaces.length →
       (recognize_faces { wIsoEnvA with faceEnvs := wIsoFe } (some ⟨240, 320⟩)).2.getD 1 "" =
         "Unknown")) :=
  ⟨⟨rfl, rfl, by decide, by decide, rfl, by decide, fun j hj => if_neg hj⟩,
   face_failure_isolated wIsoEnvA wIsoFe 1 ⟨240, 320⟩ wFaces rfl rfl
     (by decide) (by decide) rfl (by decide) (fun j hj => if_neg hj)⟩

end BIO
